import Mathlib

/-!
Shallow embedding of the quadropong server core (world model, tick engine,
session handlers) and proofs checking the natural-language specification
against it.  Spatial quantities are modelled over the rationals, wall-clock
instants as integers counting milliseconds, and identifiers as naturals.
Randomness and trigonometry are passed in as explicit parameters.
-/

inductive PlayerPosition where
  | Top
  | Bottom
  | Left
  | Right
deriving DecidableEq, Repr

inductive Direction where
  | Positive
  | Negative
deriving DecidableEq, Repr

inductive GameState where
  | WaitingForPlayers
  | Active
  | Paused
  | Finished
deriving DecidableEq, Repr

inductive GameError where
  | GameFull
  | GameNotFound
  | PlayerNotFound
  | InvalidStateTransition
  | PlayersNotReady
deriving DecidableEq, Repr

inductive ClientInputType where
  | JoinGame
  | PauseGame
  | ResumeGame
  | PlayerReady
  | MovePaddle (d : Direction)
  | Disconnect
  | Ping
deriving DecidableEq, Repr

/-- Constant BALL_SPEED from game.rs. -/
def BALL_SPEED : ℚ := 3 / 20

/-- Constant PADDLE_PADDING from game.rs. -/
def PADDLE_PADDING : ℚ := 1 / 4

/-- Constant SAFE_ZONE_MARGIN from game.rs (the code value is 1.5). -/
def SAFE_ZONE_MARGIN : ℚ := 3 / 2

/-- Constant GAME_SIZE from game.rs. -/
def GAME_SIZE : ℚ := 10

/-- Constant MAX_PLAYERS from game.rs. -/
def MAX_PLAYERS : Nat := 4

/-- Constant PING_TIMEOUT (milliseconds) from game.rs. -/
def PING_TIMEOUT : Nat := 2000

/-- Constant MAX_SCORE from game.rs. -/
def MAX_SCORE : Nat := 10

/-- Constant GOAL_TIMEOUT (milliseconds) from game.rs. -/
def GOAL_TIMEOUT : Nat := 750

/-- Models the Rust cast chain num_milliseconds() as u64 applied to a signed
millisecond count: a two-complement i64 value reinterpreted as u64, i.e. the
value modulo 2^64 (exact for |n| below 2^63, which covers realistic clocks). -/
def asU64 (n : Int) : Nat := (n % (2 : Int) ^ 64).toNat

/-- Models f32::clamp as used in the sources (min and max are always in order
at the call sites). -/
def clampQ (x lo hi : ℚ) : ℚ := if x < lo then lo else if hi < x then hi else x

structure Vec2 where
  x : ℚ
  y : ℚ
deriving DecidableEq, Repr

structure Ball where
  position : Vec2
  velocity : Vec2
  radius : ℚ
  last_touched_by : Option Nat
deriving DecidableEq, Repr

/-- Ball::new from ball.rs: centre of the court, fixed velocity (0, 0.125),
radius 0.125, no toucher. -/
def Ball.new : Ball :=
  { position := ⟨5, 5⟩
    velocity := ⟨0, 1 / 8⟩
    radius := 1 / 8
    last_touched_by := none }

/-- Ball::reset from ball.rs.  The random draw player_positions.choose(rng)
is supplied as the explicit argument choice (none models an empty slice). -/
def Ball.reset (choice : Option PlayerPosition) (b : Ball) : Ball :=
  { b with
    last_touched_by := none
    position := ⟨5, 5⟩
    velocity :=
      match choice with
      | some PlayerPosition.Top => ⟨0, 1 / 8⟩
      | some PlayerPosition.Bottom => ⟨0, -(1 / 8)⟩
      | some PlayerPosition.Left => ⟨1 / 8, 0⟩
      | some PlayerPosition.Right => ⟨-(1 / 8), 0⟩
      | none => ⟨0, 1 / 8⟩ }

/-- Ball::update_position from ball.rs. -/
def Ball.update_position (b : Ball) : Ball :=
  { b with position := ⟨b.position.x + b.velocity.x, b.position.y + b.velocity.y⟩ }

/-- Ball::is_goal from ball.rs. -/
def Ball.is_goal (b : Ball) : Option PlayerPosition :=
  if b.position.x - b.radius < 0 then some PlayerPosition.Left
  else if 10 < b.position.x + b.radius then some PlayerPosition.Right
  else if b.position.y - b.radius < 0 then some PlayerPosition.Top
  else if 10 < b.position.y + b.radius then some PlayerPosition.Bottom
  else none

/-- Ball::calculate_wall_reflection from ball.rs. -/
def Ball.calculate_wall_reflection (pos : PlayerPosition) (b : Ball) : Ball :=
  match pos with
  | PlayerPosition.Top =>
      if b.position.y - b.radius < 0 then
        { b with position := ⟨b.position.x, 0 + b.radius⟩,
                 velocity := ⟨b.velocity.x, b.velocity.y * (-1)⟩ }
      else b
  | PlayerPosition.Bottom =>
      if GAME_SIZE < b.position.y + b.radius then
        { b with position := ⟨b.position.x, 10 - b.radius⟩,
                 velocity := ⟨b.velocity.x, b.velocity.y * (-1)⟩ }
      else b
  | PlayerPosition.Left =>
      if b.position.x - b.radius < 0 then
        { b with position := ⟨0 + b.radius, b.position.y⟩,
                 velocity := ⟨b.velocity.x * (-1), b.velocity.y⟩ }
      else b
  | PlayerPosition.Right =>
      if GAME_SIZE < b.position.x + b.radius then
        { b with position := ⟨10 - b.radius, b.position.y⟩,
                 velocity := ⟨b.velocity.x * (-1), b.velocity.y⟩ }
      else b

structure Player where
  id : Nat
  name : String
  joined_at : Int
  ping_timestamp : Option Int
  score : Nat
  addr : Option Nat
  position : Option PlayerPosition
  paddle_position : ℚ
  paddle_delta : ℚ
  paddle_width : ℚ
  is_ready : Bool
  is_ai : Bool
deriving DecidableEq, Repr

/-- Player::new from player.rs; the fresh uuid and the clock reading are
passed in explicitly. -/
def Player.new (id : Nat) (now : Int) (name : String) (ai : Bool) : Player :=
  { id := id
    name := name
    joined_at := now
    ping_timestamp := none
    score := 0
    addr := none
    position := none
    paddle_position := 5
    paddle_delta := 3 / 10
    paddle_width := 1
    is_ready := ai
    is_ai := ai }

/-- Player::increment_score from player.rs. -/
def Player.increment_score (p : Player) : Player := { p with score := p.score + 1 }

/-- Player::move_paddle from player.rs. -/
def Player.move_paddle (p : Player) (direction : Direction) : Player :=
  let delta : ℚ :=
    match direction with
    | Direction.Positive => p.paddle_delta
    | Direction.Negative => -p.paddle_delta
  let delta := if p.is_ai then delta * (1 / 5) else delta
  { p with paddle_position :=
      clampQ (p.paddle_position + delta) (0 + p.paddle_width / 2) (10 - p.paddle_width / 2) }

/-- Player::move_towards from player.rs; the random offset draw in the unit
interval and the random sign are supplied as arguments r and sign. -/
def Player.move_towards (p : Player) (position : ℚ) (r : ℚ) (sign : Bool) : Player :=
  let target_position : ℚ :=
    if |position - p.paddle_position| < p.paddle_width / 2 then
      let offset := r * (p.paddle_width / 2)
      let s : ℚ := if sign then 1 else -1
      clampQ (position + offset * s)
        (p.paddle_position - p.paddle_width / 2) (p.paddle_position + p.paddle_width / 2)
    else position
  if target_position < p.paddle_position then p.move_paddle Direction.Negative
  else p.move_paddle Direction.Positive

/-- Player::calculate_ball_position from player.rs (ball projection used by
the AI controller; at most two wall bounces via the recursion counter). -/
def Player.calculate_ball_position (p : Player) (ball : Ball) (rec_step : Int) : Option ℚ :=
  if _h : 2 < rec_step then none
  else
    match p.position with
    | some PlayerPosition.Top =>
        if 0 ≤ ball.velocity.y then none
        else
          let time := (0 - ball.position.y) / ball.velocity.y
          let x := ball.position.x + ball.velocity.x * time
          if 0 ≤ time ∧ 0 ≤ x ∧ x ≤ 10 then some x else none
    | some PlayerPosition.Bottom =>
        if ball.velocity.y < 0 then none
        else
          let time := (10 - ball.position.y) / ball.velocity.y
          let x := ball.position.x + ball.velocity.x * time
          if 0 ≤ time ∧ 0 ≤ x ∧ x ≤ 10 then some x
          else
            let time_to_wall :=
              if ball.velocity.x < 0 then (0 + ball.radius - ball.position.x) / ball.velocity.x
              else (10 - ball.radius - ball.position.x) / ball.velocity.x
            let new_ball : Ball :=
              { ball with
                position := ⟨if ball.velocity.x < 0 then ball.radius else 10 - ball.radius,
                             ball.position.y + time_to_wall * ball.velocity.y⟩
                velocity := ⟨-ball.velocity.x, ball.velocity.y⟩ }
            p.calculate_ball_position new_ball (rec_step + 1)
    | some PlayerPosition.Left =>
        if 0 ≤ ball.velocity.x then none
        else
          let time := (0 - ball.position.x) / ball.velocity.x
          let y := ball.position.y + ball.velocity.y * time
          if 0 ≤ time ∧ 0 ≤ y ∧ y ≤ 10 then some y else none
    | some PlayerPosition.Right =>
        if ball.velocity.x < 0 then none
        else
          let time := (10 - ball.position.x) / ball.velocity.x
          let y := ball.position.y + ball.velocity.y * time
          if 0 ≤ time ∧ 0 ≤ y ∧ y ≤ 10 then some y else none
    | none => none
termination_by (3 - rec_step).toNat
decreasing_by
  omega

/-- Player::ai from player.rs; the two random draws inside move_towards are
supplied as arguments. -/
def Player.ai (p : Player) (ball : Ball) (r : ℚ) (sign : Bool) : Player :=
  match p.calculate_ball_position ball 1 with
  | some x => p.move_towards x r sign
  | none => p.move_towards 5 r sign

structure Game where
  id : Nat
  players : List Player
  state : GameState
  created_at : Int
  started_at : Option Int
  ball : Option Ball
  last_goal_at : Option Int
  finished_at : Option Int
deriving DecidableEq, Repr

/-- Game::new from game.rs; the fresh uuid and the clock reading are passed
in explicitly. -/
def Game.new (id : Nat) (now : Int) : Game :=
  { id := id
    players := []
    state := GameState.WaitingForPlayers
    created_at := now
    started_at := none
    ball := some Ball.new
    last_goal_at := none
    finished_at := none }

/-- HashMap::insert keyed by the player id: replaces any entry with the same
key, otherwise appends. -/
def insert_player (ps : List Player) (p : Player) : List Player :=
  ps.filter (fun q => q.id != p.id) ++ [p]

/-- Game::is_full from game.rs. -/
def Game.is_full (g : Game) : Bool := MAX_PLAYERS ≤ g.players.length

/-- Game::add_player from game.rs; the pair carries the Result value and the
post-call game. -/
def Game.add_player (g : Game) (p : Player) : Except GameError Unit × Game :=
  if g.is_full then (Except.error GameError.GameFull, g)
  else (Except.ok (), { g with players := insert_player g.players p })

/-- Game::assign_position from game.rs: first free side in the order
Top, Bottom, Right, Left. -/
def Game.assign_position (g : Game) : Option PlayerPosition :=
  let existing := g.players.filterMap (fun p => p.position)
  [PlayerPosition.Top, PlayerPosition.Bottom, PlayerPosition.Right,
    PlayerPosition.Left].find? (fun pos => !(decide (pos ∈ existing)))

/-- Game::set_game_state from game.rs: stamps finished_at when the new state
is Finished. -/
def Game.set_game_state (g : Game) (now : Int) (state : GameState) : Game :=
  let g1 := if state = GameState.Finished then { g with finished_at := some now } else g
  { g1 with state := state }

/-- Game::remove_player from game.rs: erases the key, then finishes the game
whenever fewer than two non-AI players remain. -/
def Game.remove_player (g : Game) (now : Int) (id : Nat) : Game :=
  let g1 := { g with players := g.players.filter (fun p => p.id != id) }
  if (g1.players.filter (fun p => !p.is_ai)).length < 2 then
    g1.set_game_state now GameState.Finished
  else g1

/-- Game::get_player from game.rs (HashMap::get by key). -/
def Game.get_player (g : Game) (id : Nat) : Option Player :=
  g.players.find? (fun p => p.id == id)

/-- In-place mutation through Game::get_player_mut: rewrite the unique entry
with the given key. -/
def update_first (id : Nat) (f : Player → Player) : List Player → List Player
  | [] => []
  | p :: ps => if p.id = id then f p :: ps else p :: update_first id f ps

/-- Game update through Game::get_player_mut. -/
def Game.update_player (g : Game) (id : Nat) (f : Player → Player) : Game :=
  { g with players := update_first id f g.players }

/-- Game::start_game from game.rs; the pair carries the Result value and the
post-call game (unchanged on every error path). -/
def Game.start_game (g : Game) (now : Int) : Except GameError Unit × Game :=
  if g.state ≠ GameState.WaitingForPlayers then
    (Except.error GameError.InvalidStateTransition, g)
  else if g.started_at.isSome then (Except.error GameError.InvalidStateTransition, g)
  else if g.players.length < 2 then (Except.error GameError.InvalidStateTransition, g)
  else if g.players.any (fun p => !p.is_ready) then
    (Except.error GameError.PlayersNotReady, g)
  else (Except.ok (), { g with started_at := some now, state := GameState.Active })

/-- Game::pause_game from game.rs. -/
def Game.pause_game (g : Game) : Except GameError Unit × Game :=
  if g.state ≠ GameState.Active then (Except.error GameError.InvalidStateTransition, g)
  else (Except.ok (), { g with state := GameState.Paused })

/-- Game::goal_action from game.rs; the clock reading and the random draw of
Ball::reset are passed in (pick receives the present sides, position-less
players contributing Top through unwrap_or). -/
def Game.goal_action (g : Game) (now : Int)
    (pick : List PlayerPosition → Option PlayerPosition)
    (goal_pos : PlayerPosition) : Game :=
  if g.state ≠ GameState.Active then g
  else
    match g.ball with
    | none => g
    | some b =>
        let g1 := { g with
          last_goal_at := some now
          ball := some (b.reset (pick (g.players.map
            (fun p => p.position.getD PlayerPosition.Top)))) }
        match b.last_touched_by with
        | none => g1
        | some id =>
            match g1.get_player id with
            | none => g1
            | some player =>
                if player.position ≠ some goal_pos then
                  g1.update_player id Player.increment_score
                else g1

/-- The per-player timeout test inside Game::check_players_health: a player
times out exactly when a ping timestamp exists and the signed elapsed
milliseconds, cast to u64, exceed PING_TIMEOUT. -/
def Game.timed_out (now : Int) (p : Player) : Bool :=
  match p.ping_timestamp with
  | none => false
  | some ts => PING_TIMEOUT < asU64 (now - ts)

/-- Game::check_players_health from game.rs: collect the timed-out ids, then
remove each through Game::remove_player. -/
def Game.check_players_health (g : Game) (now : Int) : Game :=
  ((g.players.filter (Game.timed_out now)).map (fun p => p.id)).foldl
    (fun g1 id => g1.remove_player now id) g

/-- The cos and sin of f32, and the f32 value of pi, abstracted as parameters
of the collision code. -/
structure Trig where
  pi : ℚ
  cos : ℚ → ℚ
  sin : ℚ → ℚ

/-- Game::is_ball_in_safe_zone from game.rs. -/
def Game.is_ball_in_safe_zone (ball : Ball) (paddle_padding : ℚ) : Bool :=
  let safe_distance := paddle_padding * SAFE_ZONE_MARGIN
  decide (safe_distance < ball.position.x) &&
    decide (ball.position.x < GAME_SIZE - safe_distance) &&
    decide (safe_distance < ball.position.y) &&
    decide (ball.position.y < GAME_SIZE - safe_distance)

/-- One arm of the player loop in Game::check_collision: the candidate next
ball position is tested against the paddle segment of the side the player
occupies; on a hit the velocity is recomputed from the reflection angle, the
ball is snapped off the paddle line and the toucher is recorded. -/
def collide_side (t : Trig) (player : Player) (ball : Ball) : Ball :=
  match player.position with
  | some PlayerPosition.Top =>
      let paddle_start := player.paddle_position - player.paddle_width / 2
      let paddle_end := player.paddle_position + player.paddle_width / 2
      let paddle_y := PADDLE_PADDING
      let next_ball_y := ball.position.y + ball.velocity.y
      if next_ball_y < paddle_y ∧ paddle_start ≤ ball.position.x + ball.radius ∧
          ball.position.x - ball.radius ≤ paddle_end then
        let hit_offset :=
          clampQ ((ball.position.x - player.paddle_position) / (player.paddle_width / 2)) (-1) 1
        let angle := 3 * t.pi / 2 + hit_offset * (t.pi / 3)
        { ball with
          velocity := ⟨BALL_SPEED * t.cos angle, -(BALL_SPEED * t.sin angle)⟩
          position := ⟨ball.position.x, paddle_y + ball.radius⟩
          last_touched_by := some player.id }
      else ball
  | some PlayerPosition.Bottom =>
      let paddle_start := player.paddle_position - player.paddle_width / 2
      let paddle_end := player.paddle_position + player.paddle_width / 2
      let paddle_y := GAME_SIZE - PADDLE_PADDING
      let next_ball_y := ball.position.y + ball.velocity.y
      if paddle_y < next_ball_y ∧ paddle_start ≤ ball.position.x + ball.radius ∧
          ball.position.x - ball.radius ≤ paddle_end then
        let hit_offset :=
          -(clampQ ((ball.position.x - player.paddle_position) / (player.paddle_width / 2)) (-1) 1)
        let angle := t.pi / 2 + hit_offset * (t.pi / 3)
        { ball with
          velocity := ⟨BALL_SPEED * t.cos angle, -(BALL_SPEED * t.sin angle)⟩
          position := ⟨ball.position.x, paddle_y - ball.radius⟩
          last_touched_by := some player.id }
      else ball
  | some PlayerPosition.Left =>
      let paddle_start := player.paddle_position - player.paddle_width / 2
      let paddle_end := player.paddle_position + player.paddle_width / 2
      let paddle_x := PADDLE_PADDING
      let next_ball_x := ball.position.x + ball.velocity.x
      if next_ball_x < paddle_x ∧ paddle_start ≤ ball.position.y + ball.radius ∧
          ball.position.y - ball.radius ≤ paddle_end then
        let hit_offset :=
          -(clampQ ((ball.position.y - player.paddle_position) / (player.paddle_width / 2)) (-1) 1)
        let angle := t.pi + hit_offset * (t.pi / 3)
        { ball with
          velocity := ⟨-(BALL_SPEED * t.cos angle), BALL_SPEED * t.sin angle⟩
          position := ⟨paddle_x + ball.radius, ball.position.y⟩
          last_touched_by := some player.id }
      else ball
  | some PlayerPosition.Right =>
      let paddle_start := player.paddle_position - player.paddle_width / 2
      let paddle_end := player.paddle_position + player.paddle_width / 2
      let paddle_x := GAME_SIZE - PADDLE_PADDING
      let next_ball_x := ball.position.x + ball.velocity.x
      if paddle_x < next_ball_x ∧ paddle_start ≤ ball.position.y + ball.radius ∧
          ball.position.y - ball.radius ≤ paddle_end then
        let hit_offset :=
          clampQ ((ball.position.y - player.paddle_position) / (player.paddle_width / 2)) (-1) 1
        let angle := 2 * t.pi + hit_offset * (t.pi / 3)
        { ball with
          velocity := ⟨-(BALL_SPEED * t.cos angle), BALL_SPEED * t.sin angle⟩
          position := ⟨paddle_x - ball.radius, ball.position.y⟩
          last_touched_by := some player.id }
      else ball
  | none => ball

/-- Game::check_collision from game.rs: short-circuits inside the safe zone,
otherwise folds the per-player collision over the player map. -/
def Game.check_collision (g : Game) (t : Trig) : Game :=
  match g.ball with
  | none => g
  | some ball =>
      if Game.is_ball_in_safe_zone ball PADDLE_PADDING then g
      else { g with ball := some (g.players.foldl (fun b p => collide_side t p b) ball) }

/-- The random draws consumed by one tick of one game, plus the clock
reading and the trigonometry of the collision code. -/
structure TickEnv where
  now : Int
  pick : List PlayerPosition → Option PlayerPosition
  aiR : Nat → ℚ
  aiSign : Nat → Bool
  trig : Trig

/-- Game::game_tick from game.rs: liveness sweep, post-goal freeze, ball
integration, AI paddles, empty-wall reflection, goal handling with the
MAX_SCORE finish, then paddle collision. -/
def Game.game_tick (g : Game) (env : TickEnv) : Game :=
  if g.state = GameState.Finished then g
  else
    let g := g.check_players_health env.now
    if g.state ≠ GameState.Active then g
    else
      let frozen : Bool :=
        match g.last_goal_at with
        | some t0 => asU64 (env.now - t0) < GOAL_TIMEOUT
        | none => false
      if frozen then g
      else
        match g.ball with
        | none => g.check_collision env.trig
        | some ball =>
            let ball := ball.update_position
            let players := g.players.map
              (fun p => if p.is_ai then p.ai ball (env.aiR p.id) (env.aiSign p.id) else p)
            let ball :=
              ([PlayerPosition.Top, PlayerPosition.Bottom, PlayerPosition.Right,
                  PlayerPosition.Left].filter
                (fun pos => players.all (fun p => p.position != some pos))).foldl
                (fun b pos => b.calculate_wall_reflection pos) ball
            let g1 := { g with players := players, ball := some ball }
            match ball.is_goal with
            | some goal_pos =>
                let g2 := g1.goal_action env.now env.pick goal_pos
                if g2.players.any (fun p => MAX_SCORE ≤ p.score) then
                  g2.set_game_state env.now GameState.Finished
                else g2.check_collision env.trig
            | none => g1.check_collision env.trig

/-- The fresh data Player::new draws inside a handler: the generated uuid and
the clock reading. -/
structure Fresh where
  id : Nat
  now : Int

/-- The player-name synthesis shared by the join and play-again handlers. -/
def player_name_from (username : Option String) (count : Nat) : String :=
  match username with
  | some name => if name ≠ "" then name else "player_" ++ toString (count + 1)
  | none => "player_" ++ toString (count + 1)

/-- The admission tail shared verbatim by the join_game and restart_game
handlers in handlers.rs: synthesize the name, assign a free side, build the
player and insert it; errors are HTTP status codes. -/
def admit_flow (g : Game) (username : Option String) (fresh : Fresh) :
    Except Nat Player × Game :=
  let player_name := player_name_from username g.players.length
  let pos := g.assign_position
  let player := { Player.new fresh.id fresh.now player_name false with position := pos }
  match g.add_player player with
  | (Except.ok _, g1) => (Except.ok player, g1)
  | (Except.error _, g1) => (Except.error 500, g1)

/-- join_game from handlers.rs restricted to a located game (uuid parsing and
map lookup are elided). -/
def join_game (g : Game) (username : Option String) (fresh : Fresh) :
    Except Nat Player × Game :=
  if g.state ≠ GameState.WaitingForPlayers then (Except.error 400, g)
  else admit_flow g username fresh

/-- add_bot from handlers.rs restricted to a located game. -/
def add_bot (g : Game) (fresh : Fresh) : Except Nat Player × Game :=
  if 4 < g.players.length + 1 then (Except.error 400, g)
  else
    let player_name := "bot_" ++ toString (g.players.length + 1)
    let pos := g.assign_position
    let player := { Player.new fresh.id fresh.now player_name true with position := pos }
    match g.add_player player with
    | (Except.ok _, g1) => (Except.ok player, g1)
    | (Except.error _, g1) => (Except.error 500, g1)

/-- restart_game (the play-again endpoint) from handlers.rs restricted to a
located game: a Finished game is sent back to WaitingForPlayers with
started_at, finished_at and the player map cleared, then the join admission
flow runs. -/
def restart_game (g : Game) (username : Option String) (fresh : Fresh) :
    Except Nat Player × Game :=
  let g :=
    if g.state = GameState.Finished then
      { g.set_game_state fresh.now GameState.WaitingForPlayers with
        started_at := none, finished_at := none, players := [] }
    else g
  if g.state ≠ GameState.WaitingForPlayers then (Except.error 400, g)
  else admit_flow g username fresh

/-- remove_bot from handlers.rs restricted to a located game: any AI player
is removed through Game::remove_player, 400 when none exists. -/
def remove_bot (g : Game) (now : Int) : Except Nat Unit × Game :=
  match g.players.find? (fun p => p.is_ai) with
  | some bot => (Except.ok (), g.remove_player now bot.id)
  | none => (Except.error 400, g)

/-- validate_game_state from message_handler.rs. -/
def validate_game_state (action : ClientInputType) (state : GameState) : Bool :=
  match action with
  | ClientInputType.MovePaddle _ => decide (state = GameState.Active)
  | ClientInputType.JoinGame => decide (state = GameState.WaitingForPlayers)
  | _ => true

/-- process_input from message_handler.rs restricted to a located game: state
gate, player lookup, then the per-action mutation (ResumeGame falls into the
unhandled arm and does nothing). -/
def process_input (g : Game) (player_id : Nat) (action : ClientInputType)
    (addr : Nat) (now : Int) : Game :=
  if !(validate_game_state action g.state) then g
  else
    match g.get_player player_id with
    | none => g
    | some _ =>
        match action with
        | ClientInputType.JoinGame =>
            g.update_player player_id
              (fun p => { p with addr := some addr, ping_timestamp := some now })
        | ClientInputType.PlayerReady =>
            let g1 := g.update_player player_id (fun p => { p with is_ready := !p.is_ready })
            match g1.start_game now with
            | (Except.ok _, g2) => { g2 with ball := some Ball.new }
            | (Except.error _, g2) => g2
        | ClientInputType.PauseGame => (g.pause_game).2
        | ClientInputType.MovePaddle d => g.update_player player_id (fun p => p.move_paddle d)
        | ClientInputType.Disconnect => g.remove_player now player_id
        | ClientInputType.Ping =>
            g.update_player player_id (fun p => { p with ping_timestamp := some now })
        | ClientInputType.ResumeGame => g

/-- The game states reachable from creation through the control-plane
handlers, the data-plane inputs and the tick task, for arbitrary clock
readings and random draws. -/
inductive Reachable : Game → Prop where
  | created (id : Nat) (now : Int) : Reachable (Game.new id now)
  | join (g : Game) (username : Option String) (fresh : Fresh) :
      Reachable g → Reachable (join_game g username fresh).2
  | play_again (g : Game) (username : Option String) (fresh : Fresh) :
      Reachable g → Reachable (restart_game g username fresh).2
  | add_bot_step (g : Game) (fresh : Fresh) :
      Reachable g → Reachable (add_bot g fresh).2
  | remove_bot_step (g : Game) (now : Int) :
      Reachable g → Reachable (remove_bot g now).2
  | input (g : Game) (pid : Nat) (action : ClientInputType) (addr : Nat) (now : Int) :
      Reachable g → Reachable (process_input g pid action addr now)
  | tick (g : Game) (env : TickEnv) :
      Reachable g → Reachable (g.game_tick env)

/-- A degenerate trigonometry instance used to evaluate the collision code at
concrete inputs whose interesting effects (position snap, toucher update) do
not depend on the trigonometric values. -/
def trig0 : Trig := ⟨0, fun _ => 0, fun _ => 0⟩

/-- The invariant of the amended claim C3: an Active or Paused game has been
started. -/
def StartedInv (g : Game) : Prop :=
  g.state = GameState.Active ∨ g.state = GameState.Paused → g.started_at.isSome = true

/-- The axis-aligned velocity pointing toward a given side at spawn speed
0.125 (the direction the specification says the spawned ball takes). -/
def direction_toward : PlayerPosition → Vec2
  | PlayerPosition.Top => ⟨0, -(1 / 8)⟩
  | PlayerPosition.Bottom => ⟨0, 1 / 8⟩
  | PlayerPosition.Left => ⟨-(1 / 8), 0⟩
  | PlayerPosition.Right => ⟨1 / 8, 0⟩

/-- The canonical side order of assign_position, as an index. -/
def posIndex : PlayerPosition → Nat
  | PlayerPosition.Top => 0
  | PlayerPosition.Bottom => 1
  | PlayerPosition.Right => 2
  | PlayerPosition.Left => 3

/-- Claim C1 counterexample data: a Left player with the default paddle. -/
def playerLeftC1 : Player :=
  { Player.new 7 0 "left" false with position := some PlayerPosition.Left }

/-- Claim C1 counterexample data: a ball inside the region the claim calls
safe (x = 0.3 lies in (0.25, 9.75)) but outside the safe zone of the code
(which needs 0.375 < x) and about to hit the Left paddle. -/
def ballC1 : Ball := { Ball.new with position := ⟨3 / 10, 5⟩, velocity := ⟨-(1 / 5), 0⟩ }

/-- Claim C1 counterexample data: the game holding the Left player and the
ball above. -/
def gameC1 : Game :=
  { Game.new 0 0 with
    state := GameState.Active
    players := [playerLeftC1]
    ball := some ballC1 }

/-- Claim C2 data: a Finished game with two players and a ball far away from
the default spawn state. -/
def gameC2 : Game :=
  { Game.new 1 0 with
    state := GameState.Finished
    started_at := some 1
    finished_at := some 9
    players := [Player.new 1 0 "a" false, Player.new 2 0 "b" false]
    ball := some { Ball.new with position := ⟨1, 1⟩, last_touched_by := some 2 } }

/-- Claim C3 counterexample trace: a fresh game that one player joins. -/
def gameC3a : Game := (join_game (Game.new 0 0) none ⟨1, 2⟩).2

/-- Claim C3 counterexample trace: the single player then disconnects, which
finishes the never-started game. -/
def gameC3bad : Game := process_input gameC3a 1 ClientInputType.Disconnect 0 5

/-- Claim C3 witness trace: two players join a fresh game. -/
def gameC3w1 : Game := (join_game (Game.new 0 0) none ⟨1, 1⟩).2

/-- Claim C3 witness trace, second join. -/
def gameC3w2 : Game := (join_game gameC3w1 none ⟨2, 2⟩).2

/-- Claim C3 witness trace: the first player toggles ready. -/
def gameC3w3 : Game := process_input gameC3w2 1 ClientInputType.PlayerReady 0 3

/-- Claim C3 witness trace: the second player toggles ready, which starts the
game. -/
def gameC3active : Game := process_input gameC3w3 2 ClientInputType.PlayerReady 0 4

/-- Claim C5 data: an Active game with a Top and a Bottom player where the
Top player touched the ball last. -/
def gameC5 : Game :=
  { Game.new 0 0 with
    state := GameState.Active
    started_at := some 1
    players := [{ Player.new 1 0 "t" false with position := some PlayerPosition.Top },
                { Player.new 2 0 "b" false with position := some PlayerPosition.Bottom }]
    ball := some { Ball.new with last_touched_by := some 1 } }

/-- A deterministic stand-in for the random side draw: the first present
side. -/
def pick0 : List PlayerPosition → Option PlayerPosition := fun l => l.head?

/-- Claim C6 data: a waiting game with two ready players. -/
def gameC6 : Game :=
  { Game.new 0 0 with
    players := [{ Player.new 1 0 "a" false with is_ready := true },
                { Player.new 2 0 "b" false with is_ready := true }] }

/-- Claim C7 data: a default player, paddle centred. -/
def playerC7 : Player := Player.new 3 0 "w" false

/-- Claim C7 data: the same player with the paddle at the lower bound. -/
def playerC7low : Player := { playerC7 with paddle_position := 1 / 2 }

/-- Claim C8 data: a game holding a single Top player. -/
def gameC8 : Game :=
  { Game.new 0 0 with
    players := [{ Player.new 1 0 "t" false with position := some PlayerPosition.Top }] }

/-- Claim C9 data: one player timed out (5000 ms old ping), one live
(1000 ms old ping), one that never pinged. -/
def gameC9 : Game :=
  { Game.new 0 0 with
    players := [{ Player.new 1 0 "a" false with ping_timestamp := some 0 },
                { Player.new 2 0 "b" false with ping_timestamp := some 4000 },
                { Player.new 3 0 "c" false with ping_timestamp := none }] }

/-- Claim C10 data: a waiting lobby with one human and one bot. -/
def gameC10 : Game :=
  { Game.new 0 0 with
    players := [Player.new 1 0 "human" false, Player.new 2 0 "bot" true] }

/-! Theorems. -/

/-- Claim C4 counterexample: the spawned ball of Ball::new is deterministic
with velocity (0, 0.125); the direction toward Top (and likewise Left and
Right) is never a possible spawn outcome, so for a game whose only present
player sits at Top the claimed direction is impossible. -/
theorem c4_counterexample :
    Ball.new.velocity = ⟨0, 1 / 8⟩ ∧
    Ball.new.velocity ≠ direction_toward PlayerPosition.Top ∧
    Ball.new.velocity ≠ direction_toward PlayerPosition.Left ∧
    Ball.new.velocity ≠ direction_toward PlayerPosition.Right := by
  with_unfolding_all decide

/-- Claim C4 amended: Ball::new is fully deterministic, centred at (5, 5)
with speed 0.125 and fixed velocity (0, 0.125) regardless of the present
players; the random choice of a present side happens only in Ball::reset,
which recentres the ball, clears the toucher, and maps the drawn side to an
axis-aligned velocity of magnitude 0.125 as in the source match. -/
theorem ball_new_spec :
    Ball.new = ⟨⟨5, 5⟩, ⟨0, 1 / 8⟩, 1 / 8, none⟩ ∧
    Ball.new.velocity.x ^ 2 + Ball.new.velocity.y ^ 2 = (1 / 8) ^ 2 ∧
    ∀ (c : PlayerPosition) (b : Ball),
      Ball.reset (some c) b =
        { b with
          position := ⟨5, 5⟩
          last_touched_by := none
          velocity :=
            match c with
            | PlayerPosition.Top => ⟨0, 1 / 8⟩
            | PlayerPosition.Bottom => ⟨0, -(1 / 8)⟩
            | PlayerPosition.Left => ⟨1 / 8, 0⟩
            | PlayerPosition.Right => ⟨-(1 / 8), 0⟩ } := by
  refine ⟨by with_unfolding_all decide, by with_unfolding_all decide, ?_⟩
  intro c b
  cases c <;> rfl

/-- Claim C1 counterexample: with the claimed margin (safe for
0.25 < x < 9.75 and likewise y) the short-circuit is violated: the code uses
SAFE_ZONE_MARGIN = 1.5, so a ball at x = 0.3 is outside the safe zone of the
code and does collide with the Left paddle, changing the ball. -/
theorem c1_counterexample :
    (gameC1.ball = some ballC1 ∧
      (1 : ℚ) / 4 < ballC1.position.x ∧ ballC1.position.x < 39 / 4 ∧
      (1 : ℚ) / 4 < ballC1.position.y ∧ ballC1.position.y < 39 / 4) ∧
    gameC1.check_collision trig0 ≠ gameC1 := by
  with_unfolding_all decide

/-- Claim C1 amended: with the safe-zone margin of the code
(SAFE_ZONE_MARGIN = 1.5, hence safe distance 0.375), a ball strictly inside
the safe zone makes check_collision leave the whole game, ball and every
player, unchanged. -/
theorem check_collision_safe_zone (t : Trig) (g : Game) (b : Ball)
    (hb : g.ball = some b)
    (hx1 : PADDLE_PADDING * SAFE_ZONE_MARGIN < b.position.x)
    (hx2 : b.position.x < GAME_SIZE - PADDLE_PADDING * SAFE_ZONE_MARGIN)
    (hy1 : PADDLE_PADDING * SAFE_ZONE_MARGIN < b.position.y)
    (hy2 : b.position.y < GAME_SIZE - PADDLE_PADDING * SAFE_ZONE_MARGIN) :
    g.check_collision t = g := by
  have hsafe : Game.is_ball_in_safe_zone b PADDLE_PADDING = true := by
    unfold Game.is_ball_in_safe_zone
    simp only [Bool.and_eq_true, decide_eq_true_eq]
    exact ⟨⟨⟨hx1, hx2⟩, hy1⟩, hy2⟩
  unfold Game.check_collision
  rw [hb]
  simp [hsafe]

/-- Claim C1 witness: the freshly spawned ball sits in the safe zone, so
check_collision is the identity on a fresh game. -/
theorem check_collision_safe_zone_witness :
    (Game.new 5 0).check_collision trig0 = Game.new 5 0 :=
  check_collision_safe_zone trig0 (Game.new 5 0) Ball.new rfl
    (by with_unfolding_all decide) (by with_unfolding_all decide)
    (by with_unfolding_all decide) (by with_unfolding_all decide)

/-- Claim C2 counterexample: the play-again endpoint does not reset the ball;
on a concrete Finished game whose ball is away from the spawn state the ball
after restart_game is unchanged and differs from the default spawn ball. -/
theorem c2_counterexample :
    gameC2.state = GameState.Finished ∧
    (restart_game gameC2 none ⟨3, 20⟩).2.ball = gameC2.ball ∧
    (restart_game gameC2 none ⟨3, 20⟩).2.ball ≠ some Ball.new := by
  with_unfolding_all decide

/-- Claim C2 amended: on a Finished game the play-again endpoint transitions
back to WaitingForPlayers, clears started_at and finished_at, removes all
players and then admits the caller as the only player; the ball is left
unchanged (it is replaced only on a later successful start). -/
theorem restart_game_resets (g : Game) (username : Option String) (fresh : Fresh)
    (hFin : g.state = GameState.Finished) :
    (restart_game g username fresh).2.state = GameState.WaitingForPlayers ∧
    (restart_game g username fresh).2.started_at = none ∧
    (restart_game g username fresh).2.finished_at = none ∧
    (restart_game g username fresh).2.ball = g.ball ∧
    ∃ pl, (restart_game g username fresh).1 = Except.ok pl ∧
      (restart_game g username fresh).2.players = [pl] := by
  unfold restart_game
  simp only [hFin, if_true, reduceIte]
  unfold Game.set_game_state
  simp only [reduceIte]
  unfold admit_flow Game.add_player Game.is_full Game.assign_position insert_player
  simp only [List.length_nil, List.filterMap_nil, List.find?]
  refine ⟨rfl, rfl, rfl, rfl, ?_⟩
  exact ⟨_, rfl, rfl⟩

/-- Claim C2 witness: the amended behaviour evaluated on the concrete
Finished game. -/
theorem restart_game_resets_witness :
    (restart_game gameC2 none ⟨3, 20⟩).2.state = GameState.WaitingForPlayers ∧
    (restart_game gameC2 none ⟨3, 20⟩).2.started_at = none ∧
    (restart_game gameC2 none ⟨3, 20⟩).2.finished_at = none ∧
    (restart_game gameC2 none ⟨3, 20⟩).2.ball = gameC2.ball ∧
    ∃ pl, (restart_game gameC2 none ⟨3, 20⟩).1 = Except.ok pl ∧
      (restart_game gameC2 none ⟨3, 20⟩).2.players = [pl] :=
  restart_game_resets gameC2 none ⟨3, 20⟩ rfl

/-- Claim C6: start_game succeeds exactly when the game is waiting, never
started, has at least two players, and every player is ready; every error is
InvalidStateTransition or PlayersNotReady and leaves the game unchanged. -/
theorem start_game_spec (g : Game) (now : Int) :
    ((g.start_game now).1 = Except.ok () ↔
      g.state = GameState.WaitingForPlayers ∧ g.started_at = none ∧
        2 ≤ g.players.length ∧ ∀ p ∈ g.players, p.is_ready = true) ∧
    ∀ e, (g.start_game now).1 = Except.error e →
      (g.start_game now).2 = g ∧
        (e = GameError.InvalidStateTransition ∨ e = GameError.PlayersNotReady) := by
  unfold Game.start_game
  split_ifs with h1 h2 h3 h4
  · refine ⟨⟨fun h => by simp at h, fun hr => absurd hr.1 h1⟩, fun e he => ?_⟩
    simp only [Except.error.injEq] at he
    subst he
    exact ⟨rfl, Or.inl rfl⟩
  · refine ⟨⟨fun h => by simp at h, fun hr => ?_⟩, fun e he => ?_⟩
    · rw [hr.2.1] at h2
      simp at h2
    · simp only [Except.error.injEq] at he
      subst he
      exact ⟨rfl, Or.inl rfl⟩
  · refine ⟨⟨fun h => by simp at h, fun hr => by omega⟩, fun e he => ?_⟩
    simp only [Except.error.injEq] at he
    subst he
    exact ⟨rfl, Or.inl rfl⟩
  · refine ⟨⟨fun h => by simp at h, fun hr => ?_⟩, fun e he => ?_⟩
    · rw [List.any_eq_true] at h4
      obtain ⟨q, hq, hq2⟩ := h4
      have hready := hr.2.2.2 q hq
      rw [hready] at hq2
      simp at hq2
    · simp only [Except.error.injEq] at he
      subst he
      exact ⟨rfl, Or.inr rfl⟩
  · refine ⟨⟨fun _ => ?_, fun _ => rfl⟩, fun e he => by simp at he⟩
    refine ⟨not_not.mp h1, ?_, by omega, ?_⟩
    · rw [← Option.not_isSome_iff_eq_none]
      simpa using h2
    · intro q hq
      rw [List.any_eq_true] at h4
      push_neg at h4
      have := h4 q hq
      simpa using this

/-- Claim C6 witness: on the concrete waiting game with two ready players,
start succeeds. -/
theorem start_game_spec_witness : (gameC6.start_game 5).1 = Except.ok () :=
  (start_game_spec gameC6 5).1.mpr (by with_unfolding_all decide)

/-- Claim C7: move_paddle keeps paddle_position within
[paddle_width/2, 10 - paddle_width/2] whenever it starts there, for either
direction and for humans and AI alike; with a nonnegative step, a Negative
move at the lower bound leaves the position unchanged. -/
theorem move_paddle_spec (p : Player) (d : Direction)
    (h1 : p.paddle_width / 2 ≤ p.paddle_position)
    (h2 : p.paddle_position ≤ 10 - p.paddle_width / 2) :
    (p.paddle_width / 2 ≤ (p.move_paddle d).paddle_position ∧
      (p.move_paddle d).paddle_position ≤ 10 - p.paddle_width / 2) ∧
    (0 ≤ p.paddle_delta → p.paddle_position = p.paddle_width / 2 →
      (p.move_paddle Direction.Negative).paddle_position = p.paddle_position) := by
  constructor
  · cases d <;>
      (unfold Player.move_paddle clampQ; dsimp only; split_ifs <;> constructor <;> linarith)
  · intro hd hlo
    unfold Player.move_paddle clampQ
    dsimp only
    split_ifs <;> linarith

/-- Claim C7 witness: the bound holds after a Positive step from the centre,
and a Negative step at the lower bound is a no-op. -/
theorem move_paddle_spec_witness :
    (playerC7.paddle_width / 2 ≤ (playerC7.move_paddle Direction.Positive).paddle_position ∧
      (playerC7.move_paddle Direction.Positive).paddle_position ≤
        10 - playerC7.paddle_width / 2) ∧
    (playerC7low.move_paddle Direction.Negative).paddle_position =
      playerC7low.paddle_position :=
  ⟨(move_paddle_spec playerC7 Direction.Positive (by with_unfolding_all decide)
      (by with_unfolding_all decide)).1,
   (move_paddle_spec playerC7low Direction.Negative (by with_unfolding_all decide)
      (by with_unfolding_all decide)).2
     (by with_unfolding_all decide) (by with_unfolding_all decide)⟩

theorem set_game_state_players (g : Game) (now : Int) (s : GameState) :
    (g.set_game_state now s).players = g.players := by
  unfold Game.set_game_state
  dsimp only
  split <;> rfl

theorem set_game_state_state (g : Game) (now : Int) (s : GameState) :
    (g.set_game_state now s).state = s := rfl

theorem set_game_state_started (g : Game) (now : Int) (s : GameState) :
    (g.set_game_state now s).started_at = g.started_at := by
  unfold Game.set_game_state
  dsimp only
  split <;> rfl

theorem set_game_state_finished_time (g : Game) (now : Int) :
    (g.set_game_state now GameState.Finished).finished_at = some now := by
  unfold Game.set_game_state
  dsimp only
  rw [if_pos rfl]

theorem remove_player_players (g : Game) (now : Int) (id : Nat) :
    (g.remove_player now id).players = g.players.filter (fun p => p.id != id) := by
  unfold Game.remove_player
  dsimp only
  split
  · rw [set_game_state_players]
  · rfl

theorem remove_player_finishes_aux (g : Game) (now : Int) (id : Nat)
    (h : ((g.players.filter (fun p => p.id != id)).filter (fun p => !p.is_ai)).length < 2) :
    (g.remove_player now id).state = GameState.Finished ∧
      (g.remove_player now id).finished_at = some now := by
  unfold Game.remove_player
  dsimp only
  have h2 : ((({ g with players := g.players.filter (fun p => p.id != id) } : Game).players.filter
      (fun p => !p.is_ai)).length < 2) := h
  rw [if_pos h2]
  exact ⟨set_game_state_state _ _ _, set_game_state_finished_time _ _⟩

/-- Claim C10: whenever remove_player leaves fewer than two non-AI players,
the game is finished with finished_at stamped to the current time, whatever
the prior state; and remove_bot on a lobby holding a bot and at most one
human finishes that lobby. -/
theorem remove_player_finishes (g : Game) (now : Int) (id : Nat) :
    (((g.remove_player now id).players.filter (fun p => !p.is_ai)).length < 2 →
      (g.remove_player now id).state = GameState.Finished ∧
        (g.remove_player now id).finished_at = some now) ∧
    ∀ bot, g.players.find? (fun p => p.is_ai) = some bot →
      (g.players.filter (fun p => !p.is_ai)).length ≤ 1 →
      (remove_bot g now).1 = Except.ok () ∧
        (remove_bot g now).2.state = GameState.Finished ∧
        (remove_bot g now).2.finished_at = some now := by
  constructor
  · intro hlt
    rw [remove_player_players] at hlt
    exact remove_player_finishes_aux g now id hlt
  · intro bot hbot hhum
    have hlt : ((g.players.filter (fun p => p.id != bot.id)).filter
        (fun p => !p.is_ai)).length < 2 := by
      have hsub := (List.filter_sublist (l := g.players)
        (p := fun p => p.id != bot.id)).filter (fun p => !p.is_ai)
      have hle := hsub.length_le
      omega
    unfold remove_bot
    rw [hbot]
    exact ⟨rfl, (remove_player_finishes_aux g now bot.id hlt).1,
      (remove_player_finishes_aux g now bot.id hlt).2⟩

/-- Claim C10 witness: removing the only human, or removing the bot, from the
concrete one-human one-bot lobby finishes it. -/
theorem remove_player_finishes_witness :
    ((gameC10.remove_player 7 1).state = GameState.Finished ∧
      (gameC10.remove_player 7 1).finished_at = some 7) ∧
    ((remove_bot gameC10 7).1 = Except.ok () ∧
      (remove_bot gameC10 7).2.state = GameState.Finished ∧
      (remove_bot gameC10 7).2.finished_at = some 7) :=
  ⟨(remove_player_finishes gameC10 7 1).1 (by with_unfolding_all decide),
   (remove_player_finishes gameC10 7 1).2 (Player.new 2 0 "bot" true)
     (by with_unfolding_all decide) (by with_unfolding_all decide)⟩

theorem foldl_remove_players (now : Int) (ids : List Nat) :
    ∀ g : Game, ((ids.foldl (fun g1 id => g1.remove_player now id) g).players) =
      g.players.filter (fun p => !(ids.contains p.id)) := by
  induction ids with
  | nil =>
      intro g
      simp
  | cons i is ih =>
      intro g
      rw [List.foldl_cons, ih, remove_player_players, List.filter_filter]
      apply List.filter_congr
      intro p _
      simp only [List.contains_cons, Bool.not_or, bne]
      rw [Bool.and_comm]

theorem contains_timed_out (g : Game) (now : Int)
    (hnodup : (g.players.map Player.id).Nodup) :
    ∀ p ∈ g.players,
      ((g.players.filter (Game.timed_out now)).map (fun q => q.id)).contains p.id =
        Game.timed_out now p := by
  intro p hp
  by_cases ht : Game.timed_out now p = true
  · rw [ht]
    exact List.elem_iff.mpr
      (List.mem_map.mpr ⟨p, List.mem_filter.mpr ⟨hp, ht⟩, rfl⟩)
  · have ht2 : Game.timed_out now p = false := by simpa using ht
    rw [ht2]
    cases hcase : ((g.players.filter (Game.timed_out now)).map (fun q => q.id)).contains p.id with
    | false => rfl
    | true =>
        exfalso
        obtain ⟨q, hq, hqid⟩ := List.mem_map.mp (List.elem_iff.mp hcase)
        obtain ⟨hq1, hq2⟩ := List.mem_filter.mp hq
        have hqp : q = p := List.inj_on_of_nodup_map hnodup hq1 hp hqid
        rw [hqp] at hq2
        exact ht hq2

/-- Claim C9: the liveness sweep removes exactly the players holding a ping
timestamp older than 2000 ms; a player whose ping_timestamp is None is never
removed.  The timestamps are assumed not to lie in the future and within i64
range, matching the wall-clock readings of the server. -/
theorem check_players_health_spec (g : Game) (now : Int)
    (hnodup : (g.players.map Player.id).Nodup)
    (hpast : ∀ p ∈ g.players, ∀ ts, p.ping_timestamp = some ts →
      ts ≤ now ∧ now - ts < 2 ^ 63) :
    (g.check_players_health now).players =
      g.players.filter (fun p => !(Game.timed_out now p)) ∧
    ∀ p ∈ g.players,
      (Game.timed_out now p = true ↔
        ∃ ts, p.ping_timestamp = some ts ∧ 2000 < now - ts) := by
  constructor
  · unfold Game.check_players_health
    rw [foldl_remove_players]
    apply List.filter_congr
    intro p hp
    rw [contains_timed_out g now hnodup p hp]
  · intro p hp
    cases hping : p.ping_timestamp with
    | none =>
        unfold Game.timed_out
        rw [hping]
        simp
    | some ts =>
        obtain ⟨h1, h2⟩ := hpast p hp ts hping
        have hmod : (now - ts) % (2 : Int) ^ 64 = now - ts :=
          Int.emod_eq_of_lt (by omega) (by omega)
        unfold Game.timed_out
        rw [hping]
        simp only [decide_eq_true_eq]
        unfold asU64 PING_TIMEOUT
        rw [hmod]
        constructor
        · intro hdec
          exact ⟨ts, rfl, by omega⟩
        · rintro ⟨ts2, hts2, hgt⟩
          injection hts2 with hts2
          subst hts2
          omega

/-- Claim C9 witness: on the concrete game the sweep keeps exactly the
freshly pinged player and the player without a ping timestamp. -/
theorem check_players_health_spec_witness :
    (gameC9.check_players_health 5000).players =
      gameC9.players.filter (fun p => !(Game.timed_out 5000 p)) :=
  (check_players_health_spec gameC9 5000 (by with_unfolding_all decide)
    (by
      intro p hp ts hts
      fin_cases hp <;> simp_all <;> omega)).1

theorem map_update_id_not_mem {l : List Player} {id : Nat} (h : id ∉ l.map Player.id)
    (f : Player → Player) :
    l.map (fun q => if q.id = id then f q else q) = l := by
  induction l with
  | nil => rfl
  | cons p ps ih =>
      rw [List.map_cons, List.mem_cons] at h
      push_neg at h
      rw [List.map_cons, if_neg (fun hq => h.1 hq.symm), ih h.2]

theorem update_first_eq_map {l : List Player} (id : Nat) (f : Player → Player)
    (hn : (l.map Player.id).Nodup) :
    update_first id f l = l.map (fun q => if q.id = id then f q else q) := by
  induction l with
  | nil => rfl
  | cons p ps ih =>
      rw [List.map_cons, List.nodup_cons] at hn
      unfold update_first
      by_cases hp : p.id = id
      · rw [if_pos hp, List.map_cons, if_pos hp, map_update_id_not_mem (hp ▸ hn.1) f]
      · rw [if_neg hp, List.map_cons, if_neg hp, ih hn.2]

/-- Claim C5: on an Active game with a ball whose toucher is a player of the
game, goal_action stamps last_goal_at, resets the ball with the drawn side,
and leaves every score unchanged when the toucher occupies the goal side,
otherwise increments exactly the toucher score by one. -/
theorem goal_action_spec (g : Game) (now : Int)
    (pick : List PlayerPosition → Option PlayerPosition) (goal_pos : PlayerPosition)
    (b : Ball) (pid : Nat) (pl : Player)
    (hstate : g.state = GameState.Active)
    (hball : g.ball = some b)
    (htouch : b.last_touched_by = some pid)
    (hfind : g.get_player pid = some pl)
    (hnodup : (g.players.map Player.id).Nodup) :
    (g.goal_action now pick goal_pos).last_goal_at = some now ∧
    (g.goal_action now pick goal_pos).ball =
      some (b.reset (pick (g.players.map (fun p => p.position.getD PlayerPosition.Top)))) ∧
    (g.goal_action now pick goal_pos).players =
      (if pl.position = some goal_pos then g.players
       else g.players.map
         (fun q => if q.id = pid then { q with score := q.score + 1 } else q)) := by
  have hfind2 : g.players.find? (fun p => p.id == pid) = some pl := hfind
  unfold Game.goal_action
  rw [if_neg (show ¬(g.state ≠ GameState.Active) from fun hh => hh hstate)]
  rw [hball]
  dsimp only
  rw [htouch]
  dsimp only
  simp only [Game.get_player]
  rw [hfind2]
  dsimp only
  by_cases hpos : pl.position = some goal_pos
  · rw [if_neg (fun hh => hh hpos), if_pos hpos]
    exact ⟨rfl, rfl, rfl⟩
  · rw [if_pos hpos, if_neg hpos]
    refine ⟨rfl, rfl, ?_⟩
    show update_first pid Player.increment_score g.players = _
    rw [update_first_eq_map pid Player.increment_score hnodup]
    rfl

/-- Claim C5 witness: on the concrete Active game where the Top player
touched last, a goal on Bottom credits the Top player. -/
theorem goal_action_spec_witness :
    (gameC5.goal_action 50 pick0 PlayerPosition.Bottom).last_goal_at = some 50 ∧
    (gameC5.goal_action 50 pick0 PlayerPosition.Bottom).ball =
      some (Ball.reset
        (pick0 (gameC5.players.map (fun p => p.position.getD PlayerPosition.Top)))
        { Ball.new with last_touched_by := some 1 }) ∧
    (gameC5.goal_action 50 pick0 PlayerPosition.Bottom).players =
      (if ({ Player.new 1 0 "t" false with
          position := some PlayerPosition.Top } : Player).position =
            some PlayerPosition.Bottom then gameC5.players
       else gameC5.players.map
         (fun q => if q.id = 1 then { q with score := q.score + 1 } else q)) :=
  goal_action_spec gameC5 50 pick0 PlayerPosition.Bottom
    { Ball.new with last_touched_by := some 1 } 1
    { Player.new 1 0 "t" false with position := some PlayerPosition.Top }
    rfl rfl rfl (by with_unfolding_all decide) (by decide)

/-- Claim C8: assign_position returns the first side in the order Top,
Bottom, Right, Left held by no player, and none exactly when all four sides
are held; consequently the second player joining an empty game is assigned
Bottom. -/
theorem assign_position_spec (g : Game) :
    (g.assign_position = none ↔
      ((∃ p ∈ g.players, p.position = some PlayerPosition.Top) ∧
        (∃ p ∈ g.players, p.position = some PlayerPosition.Bottom) ∧
        (∃ p ∈ g.players, p.position = some PlayerPosition.Right) ∧
        (∃ p ∈ g.players, p.position = some PlayerPosition.Left))) ∧
    (∀ pos, g.assign_position = some pos →
      ¬(∃ p ∈ g.players, p.position = some pos) ∧
      ∀ pos2, posIndex pos2 < posIndex pos → ∃ p ∈ g.players, p.position = some pos2) ∧
    (∀ (id : Nat) (now : Int) (u1 u2 : Option String) (f1 f2 : Fresh),
      ∃ pl, (join_game (join_game (Game.new id now) u1 f1).2 u2 f2).1 = Except.ok pl ∧
        pl.position = some PlayerPosition.Bottom) := by
  have hmem : ∀ pos : PlayerPosition,
      pos ∈ g.players.filterMap (fun p => p.position) ↔
        ∃ p ∈ g.players, p.position = some pos := by
    intro pos
    simp [List.mem_filterMap]
  refine ⟨?_, ?_, ?_⟩
  · simp only [← hmem]
    unfold Game.assign_position
    by_cases hT : PlayerPosition.Top ∈ g.players.filterMap (fun p => p.position) <;>
      by_cases hB : PlayerPosition.Bottom ∈ g.players.filterMap (fun p => p.position) <;>
      by_cases hR : PlayerPosition.Right ∈ g.players.filterMap (fun p => p.position) <;>
      by_cases hL : PlayerPosition.Left ∈ g.players.filterMap (fun p => p.position) <;>
      simp [List.find?, hT, hB, hR, hL]
  · intro pos hpos
    simp only [← hmem]
    unfold Game.assign_position at hpos
    by_cases hT : PlayerPosition.Top ∈ g.players.filterMap (fun p => p.position) <;>
      by_cases hB : PlayerPosition.Bottom ∈ g.players.filterMap (fun p => p.position) <;>
      by_cases hR : PlayerPosition.Right ∈ g.players.filterMap (fun p => p.position) <;>
      by_cases hL : PlayerPosition.Left ∈ g.players.filterMap (fun p => p.position) <;>
      simp only [List.find?, hT, hB, hR, hL, decide_True, decide_False, Bool.not_true,
        Bool.not_false, Option.some.injEq, reduceCtorEq] at hpos <;>
      first
        | exact absurd hpos (by simp)
        | (subst hpos
           refine ⟨by assumption, ?_⟩
           intro pos2 hlt
           cases pos2 <;>
             simp only [posIndex] at hlt <;>
             first
               | assumption
               | exact absurd hlt (by omega))
  · intro id now u1 u2 f1 f2
    exact ⟨_, rfl, rfl⟩

/-- Claim C8 witness: in the concrete game holding only a Top player, the
assigned side is Bottom, so Bottom is unheld while Top is held. -/
theorem assign_position_spec_witness :
    ¬(∃ p ∈ gameC8.players, p.position = some PlayerPosition.Bottom) ∧
    (∃ p ∈ gameC8.players, p.position = some PlayerPosition.Top) :=
  ⟨((assign_position_spec gameC8).2.1 PlayerPosition.Bottom (by decide)).1,
   ((assign_position_spec gameC8).2.1 PlayerPosition.Bottom (by decide)).2
     PlayerPosition.Top (by decide)⟩

theorem startedInv_of_eq {g g2 : Game} (hs : g2.state = g.state)
    (ha : g2.started_at = g.started_at) (h : StartedInv g) : StartedInv g2 := by
  intro hc
  rw [ha]
  apply h
  rwa [hs] at hc

theorem startedInv_not_ap {g : Game} (hA : g.state ≠ GameState.Active)
    (hP : g.state ≠ GameState.Paused) : StartedInv g := by
  intro hc
  rcases hc with h | h
  · exact absurd h hA
  · exact absurd h hP

theorem startedInv_set_finished (g : Game) (now : Int) :
    StartedInv (g.set_game_state now GameState.Finished) :=
  startedInv_not_ap (by rw [set_game_state_state]; simp)
    (by rw [set_game_state_state]; simp)

theorem startedInv_remove (g : Game) (now : Int) (id : Nat) (h : StartedInv g) :
    StartedInv (g.remove_player now id) := by
  unfold Game.remove_player
  dsimp only
  split
  · exact startedInv_set_finished _ _
  · exact startedInv_of_eq rfl rfl h

theorem startedInv_health (g : Game) (now : Int) (h : StartedInv g) :
    StartedInv (g.check_players_health now) := by
  unfold Game.check_players_health
  generalize ((g.players.filter (Game.timed_out now)).map (fun p => p.id)) = ids
  induction ids generalizing g with
  | nil => exact h
  | cons i is ih =>
      rw [List.foldl_cons]
      exact ih _ (startedInv_remove g now i h)

theorem update_player_state (g : Game) (id : Nat) (f : Player → Player) :
    (g.update_player id f).state = g.state := rfl

theorem startedInv_update (g : Game) (id : Nat) (f : Player → Player)
    (h : StartedInv g) : StartedInv (g.update_player id f) :=
  startedInv_of_eq rfl rfl h

theorem goal_action_state (g : Game) (now : Int)
    (pick : List PlayerPosition → Option PlayerPosition) (gp : PlayerPosition) :
    (g.goal_action now pick gp).state = g.state := by
  unfold Game.goal_action
  split
  · rfl
  · split
    · rfl
    · split
      · rfl
      · dsimp only
        split
        · rfl
        · split <;> rfl

theorem goal_action_started (g : Game) (now : Int)
    (pick : List PlayerPosition → Option PlayerPosition) (gp : PlayerPosition) :
    (g.goal_action now pick gp).started_at = g.started_at := by
  unfold Game.goal_action
  split
  · rfl
  · split
    · rfl
    · split
      · rfl
      · dsimp only
        split
        · rfl
        · split <;> rfl

theorem startedInv_goal (g : Game) (now : Int)
    (pick : List PlayerPosition → Option PlayerPosition) (gp : PlayerPosition)
    (h : StartedInv g) : StartedInv (g.goal_action now pick gp) :=
  startedInv_of_eq (goal_action_state g now pick gp) (goal_action_started g now pick gp) h

theorem check_collision_state (g : Game) (t : Trig) :
    (g.check_collision t).state = g.state := by
  unfold Game.check_collision
  split
  · rfl
  · split <;> rfl

theorem check_collision_started (g : Game) (t : Trig) :
    (g.check_collision t).started_at = g.started_at := by
  unfold Game.check_collision
  split
  · rfl
  · split <;> rfl

theorem startedInv_collision (g : Game) (t : Trig) (h : StartedInv g) :
    StartedInv (g.check_collision t) :=
  startedInv_of_eq (check_collision_state g t) (check_collision_started g t) h

theorem startedInv_pause (g : Game) (h : StartedInv g) : StartedInv (g.pause_game).2 := by
  unfold Game.pause_game
  split
  · exact h
  · next hna =>
      intro _
      show g.started_at.isSome = true
      exact h (Or.inl (not_not.mp hna))

theorem startedInv_start (g : Game) (now : Int) (h : StartedInv g) :
    StartedInv (g.start_game now).2 := by
  unfold Game.start_game
  split_ifs
  · exact h
  · exact h
  · exact h
  · exact h
  · intro _
    rfl

theorem startedInv_waiting {g : Game} (hs : g.state = GameState.WaitingForPlayers) :
    StartedInv g :=
  startedInv_not_ap (by rw [hs]; simp) (by rw [hs]; simp)

theorem admit_flow_fields (g : Game) (u : Option String) (f : Fresh) :
    (admit_flow g u f).2.state = g.state ∧ (admit_flow g u f).2.started_at = g.started_at := by
  unfold admit_flow Game.add_player
  dsimp only
  split_ifs <;> exact ⟨rfl, rfl⟩

theorem startedInv_join (g : Game) (u : Option String) (f : Fresh) (h : StartedInv g) :
    StartedInv (join_game g u f).2 := by
  unfold join_game
  split
  · exact h
  · exact startedInv_of_eq (admit_flow_fields g u f).1 (admit_flow_fields g u f).2 h

theorem add_bot_fields (g : Game) (f : Fresh) :
    (add_bot g f).2.state = g.state ∧ (add_bot g f).2.started_at = g.started_at := by
  unfold add_bot Game.add_player
  dsimp only
  split_ifs <;> exact ⟨rfl, rfl⟩

theorem startedInv_addBot (g : Game) (f : Fresh) (h : StartedInv g) :
    StartedInv (add_bot g f).2 :=
  startedInv_of_eq (add_bot_fields g f).1 (add_bot_fields g f).2 h

theorem startedInv_restart (g : Game) (u : Option String) (f : Fresh) (h : StartedInv g) :
    StartedInv (restart_game g u f).2 := by
  unfold restart_game
  dsimp only
  by_cases hf : g.state = GameState.Finished <;> simp only [hf, reduceIte]
  · have hR : StartedInv ({ g.set_game_state f.now GameState.WaitingForPlayers with
        started_at := none, finished_at := none, players := [] } : Game) :=
      startedInv_waiting rfl
    split
    · exact hR
    · exact startedInv_of_eq (admit_flow_fields _ u f).1 (admit_flow_fields _ u f).2 hR
  · split
    · exact h
    · exact startedInv_of_eq (admit_flow_fields g u f).1 (admit_flow_fields g u f).2 h

theorem startedInv_removeBot (g : Game) (now : Int) (h : StartedInv g) :
    StartedInv (remove_bot g now).2 := by
  unfold remove_bot
  split
  · exact startedInv_remove _ _ _ h
  · exact h

theorem startedInv_input (g : Game) (pid : Nat) (a : ClientInputType) (addr : Nat)
    (now : Int) (h : StartedInv g) : StartedInv (process_input g pid a addr now) := by
  cases a with
  | JoinGame =>
      unfold process_input
      split
      · exact h
      · split
        · exact h
        · exact startedInv_update _ _ _ h
  | PlayerReady =>
      unfold process_input
      split
      · exact h
      · split
        · exact h
        · dsimp only
          have h1 : StartedInv ((g.update_player pid
              (fun p => { p with is_ready := !p.is_ready })).start_game now).2 :=
            startedInv_start _ _ (startedInv_update _ _ _ h)
          split
          · next heq =>
              rw [heq] at h1
              exact startedInv_of_eq rfl rfl h1
          · next heq =>
              rw [heq] at h1
              exact h1
  | PauseGame =>
      unfold process_input
      split
      · exact h
      · split
        · exact h
        · exact startedInv_pause _ h
  | MovePaddle d =>
      unfold process_input
      split
      · exact h
      · split
        · exact h
        · exact startedInv_update _ _ _ h
  | Disconnect =>
      unfold process_input
      split
      · exact h
      · split
        · exact h
        · exact startedInv_remove _ _ _ h
  | Ping =>
      unfold process_input
      split
      · exact h
      · split
        · exact h
        · exact startedInv_update _ _ _ h
  | ResumeGame =>
      unfold process_input
      split
      · exact h
      · split
        · exact h
        · exact h

theorem startedInv_tick (g : Game) (env : TickEnv) (h : StartedInv g) :
    StartedInv (g.game_tick env) := by
  unfold Game.game_tick
  split
  · exact h
  · have h1 : StartedInv (g.check_players_health env.now) := startedInv_health g env.now h
    simp only []
    split
    · exact h1
    · split
      · exact h1
      · split
        · exact startedInv_collision _ _ h1
        · split
          · split
            · exact startedInv_set_finished _ _
            · exact startedInv_collision _ _
                (startedInv_goal _ _ _ _ (startedInv_of_eq rfl rfl h1))
          · exact startedInv_collision _ _ (startedInv_of_eq rfl rfl h1)

/-- Claim C3 counterexample: a game can become Finished without ever having
been started.  Create a game, let one player join over the control plane,
then let that player disconnect: remove_player finishes the waiting lobby
while started_at is still none, refuting the claimed invariant. -/
theorem c3_counterexample :
    ¬ ∀ g : Game, Reachable g →
      (g.state = GameState.Active ∨ g.state = GameState.Paused ∨
        g.state = GameState.Finished) →
      g.started_at.isSome = true := by
  intro hall
  have hr : Reachable gameC3bad :=
    Reachable.input gameC3a 1 ClientInputType.Disconnect 0 5
      (Reachable.join (Game.new 0 0) none ⟨1, 2⟩ (Reachable.created 0 0))
  have hsome := hall gameC3bad hr
    (Or.inr (Or.inr (by with_unfolding_all decide)))
  exact absurd hsome (by with_unfolding_all decide)

/-- Claim C3 amended: in every reachable game state, state Active or Paused
implies started_at is set; a game can however reach Finished without ever
having started, since remove_player finishes any lobby left with fewer than
two humans. -/
theorem reachable_started_inv (g : Game) (hr : Reachable g)
    (hs : g.state = GameState.Active ∨ g.state = GameState.Paused) :
    g.started_at.isSome = true := by
  have hinv : StartedInv g := by
    clear hs
    induction hr with
    | created id now => exact startedInv_waiting rfl
    | join g2 u f _ ih => exact startedInv_join g2 u f ih
    | play_again g2 u f _ ih => exact startedInv_restart g2 u f ih
    | add_bot_step g2 f _ ih => exact startedInv_addBot g2 f ih
    | remove_bot_step g2 now _ ih => exact startedInv_removeBot g2 now ih
    | input g2 pid a addr now _ ih => exact startedInv_input g2 pid a addr now ih
    | tick g2 env _ ih => exact startedInv_tick g2 env ih
  exact hinv hs

/-- Claim C3 witness: the concrete reachable trace in which two players join
and both toggle ready produces an Active game, and the theorem yields that
its started_at is set. -/
theorem reachable_started_inv_witness :
    gameC3active.state = GameState.Active ∧ gameC3active.started_at.isSome = true :=
  ⟨by with_unfolding_all decide,
   reachable_started_inv gameC3active
     (Reachable.input gameC3w3 2 ClientInputType.PlayerReady 0 4
       (Reachable.input gameC3w2 1 ClientInputType.PlayerReady 0 3
         (Reachable.join gameC3w1 none ⟨2, 2⟩
           (Reachable.join (Game.new 0 0) none ⟨1, 1⟩ (Reachable.created 0 0)))))
     (Or.inl (by with_unfolding_all decide))⟩
